import Mathlib

/-!
Shallow embedding of `flexx/util/config.py` (the layered configuration
engine).  Python values are modelled by the inductive `PyVal`, Python
exceptions by `PyError`, and the `Config` object by the structure
`ConfigState`.  Stateful methods are modelled as explicit state-passing
functions; a method that can raise returns the pair
`(state after the call, optional exception)` so that partial mutation
(or its absence) before a raise is captured faithfully.

The Python standard-library `configparser` module is external to the
repository; a successfully parsed source is therefore modelled by the
`IniFile` structure (section names exact-case, option keys stored
case-folded, as `configparser`'s `optionxform` lower-cases them), and
each candidate source in the constructor's loop is represented by its
resolved outcome (`SourceOutcome`).

String primitives are re-implemented over `String.data` so that every
definition evaluates by kernel reduction.
-/

/-- Case-fold a string, as Python `str.lower` does for ASCII. -/
def strLower (s : String) : String := ⟨s.data.map Char.toLower⟩

/-- Upper-case a string, as Python `str.upper` does for ASCII. -/
def strUpper (s : String) : String := ⟨s.data.map Char.toUpper⟩

/-- Python `s.startswith(p)`. -/
def strStarts (s p : String) : Bool := p.data.isPrefixOf s.data

/-- Python `s[n:]`. -/
def strDrop (s : String) (n : Nat) : String := ⟨s.data.drop n⟩

/-- Python whitespace characters recognised by `str.strip`. -/
def pyIsSpace (c : Char) : Bool :=
  c = ' ' || c = '\t' || c = '\n' || c = '\r' || c = '\x0b' || c = '\x0c'

/-- Python `s.strip()`. -/
def strTrim (s : String) : String :=
  ⟨((s.data.dropWhile pyIsSpace).reverse.dropWhile pyIsSpace).reverse⟩

/-- Python runtime values, as far as the configuration engine needs them:
strings, ints, bools, `None` and lists.  (Python floats are not modelled;
no claim exercises a float-typed option.) -/
inductive PyVal where
  | str (s : String)
  | int (n : Int)
  | bool (b : Bool)
  | none
  | list (xs : List PyVal)

/-- Python exceptions raised by the code under study. -/
inductive PyError where
  | valueError (msg : String)
  | typeError (msg : String)
  | indexError (msg : String)
  | keyError (msg : String)
  | nameError (msg : String)
deriving Repr, DecidableEq

deriving instance DecidableEq for Except

mutual

/-- Python `repr` for `PyVal` (used by `str` on non-string values). -/
def pyRepr : PyVal → String
  | .str s => String.singleton (Char.ofNat 39) ++ s ++ String.singleton (Char.ofNat 39)
  | .int n => toString n
  | .bool b => if b then "True" else "False"
  | .none => "None"
  | .list xs => "[" ++ String.intercalate ", " (pyReprList xs) ++ "]"

/-- `repr` of each element of a list. -/
def pyReprList : List PyVal → List String
  | [] => []
  | x :: xs => pyRepr x :: pyReprList xs

end

/-- Python `str(value)`: identity on strings, textual form otherwise
(never fails). -/
def pyStr : PyVal → String
  | .str s => s
  | v => pyRepr v

/-- `BOOLEAN_STATES` from config.py lines 47-48: the case-folded string
forms accepted by `as_bool`. -/
def BOOLEAN_STATES : List (String × Bool) :=
  [("1", true), ("yes", true), ("true", true), ("on", true),
   ("0", false), ("no", false), ("false", false), ("off", false)]

/-- `as_bool` from config.py lines 50-56: booleans pass through, strings
are matched case-insensitively against `BOOLEAN_STATES`, everything else
raises `ValueError`. -/
def as_bool (value : PyVal) : Except PyError Bool :=
  match value with
  | .bool b => .ok b
  | .str s =>
    match BOOLEAN_STATES.lookup (strLower s) with
    | some b => .ok b
    | Option.none => .error (.valueError ("Cannot make a bool of " ++ pyRepr (.str s)))
  | v => .error (.valueError ("Cannot make a bool of " ++ pyRepr v))

/-- Decimal-integer parsing as Python `int(string)` does it: surrounding
whitespace stripped, an optional sign, then one or more digits. -/
def parseIntStr (s : String) : Option Int :=
  let t := strTrim s
  let (neg, digits) :=
    if strStarts t "-" then (true, strDrop t 1)
    else if strStarts t "+" then (false, strDrop t 1)
    else (false, t)
  if digits.data ≠ [] ∧ digits.data.all Char.isDigit then
    let n : Nat := digits.data.foldl (fun a c => a * 10 + (c.toNat - 48)) 0
    some (if neg then -(n : Int) else (n : Int))
  else Option.none

/-- Python `int(value)`: ints pass through, bools count as 0/1 (Python's
`bool` is a subclass of `int`), decimal strings are parsed, everything
else raises `ValueError`. -/
def pyInt (value : PyVal) : Except PyError Int :=
  match value with
  | .int n => .ok n
  | .bool b => .ok (if b then 1 else 0)
  | .str s =>
    match parseIntStr s with
    | some n => .ok n
    | Option.none => .error (.valueError ("invalid literal for int: " ++ pyRepr (.str s)))
  | v => .error (.valueError ("int argument must be a string or a number, not " ++ pyRepr v))

/-- The Python type objects appearing as keys of `TYPEMAP`
(config.py line 63). -/
inductive PyType where
  | str
  | int
  | float
  | bool
deriving Repr, DecidableEq

/-- The validator `TYPEMAP` binds to each supported type object
(config.py line 63): `str`, `int`, `as_bool`, and Python's `float`.
Python `float(...)` produces floating-point values, which are outside
this embedding; no claim exercises a float-typed option, so its
coercion conservatively fails. -/
def typemapValidator : PyType → PyVal → Except PyError PyVal
  | .str, v => .ok (.str (pyStr v))
  | .int, v => (pyInt v).map PyVal.int
  | .bool, v => (as_bool v).map PyVal.bool
  | .float, _ => .error (.valueError "float coercion not modelled")

/-- First character of a Python identifier. -/
def isIdentStart (c : Char) : Bool := c.isAlpha || c = '_'

/-- Non-first character of a Python identifier. -/
def isIdentChar (c : Char) : Bool := c.isAlphanum || c = '_'

/-- Python `str.isidentifier` restricted to ASCII names. -/
def isIdentifier (s : String) : Bool :=
  match s.data with
  | [] => false
  | c :: cs => isIdentStart c && cs.all isIdentChar

/-- `is_valid_name` from config.py lines 65-66 (the `isinstance` check is
carried by the argument type). -/
def is_valid_name (n : String) : Bool :=
  isIdentifier n && !(strStarts n "_")

/-- An option's declared kind as passed to the constructor: one of the
`TYPEMAP` type objects, a sequence of type objects (e.g. a one-element
tuple or list), or some other non-type object. -/
inductive KindSpec where
  | typ (t : PyType)
  | seq (elems : List PyType)
  | other
deriving Repr, DecidableEq

/-- A 3-element option specification `(default, type, docs)`
(config.py lines 133-135). -/
structure OptionSpec where
  default : PyVal
  typ : KindSpec
  doc : String

/-- The mutable state of a `Config` object: `_name`, `_options`
(original-case names in registration order), `_opt_values` (case-folded
name to value history) and `_opt_validators` (case-folded name to the
`TYPEMAP` entry for the declared type), per config.py lines 109-122. -/
structure ConfigState where
  name : String
  options : List String
  optValues : List (String × List (String × PyVal))
  optValidators : List (String × PyType)

/-- Overwrite the value at an existing key of an association list,
keeping its position (Python dict assignment to a present key). -/
def updateEntry (k : String) (v : β) : List (String × β) → List (String × β)
  | [] => []
  | (k0, v0) :: rest =>
    if k0 = k then (k0, v) :: rest else (k0, v0) :: updateEntry k v rest

/-- Python dict assignment: overwrite in place if the key is present,
append otherwise. -/
def dictSet (m : List (String × β)) (k : String) (v : β) : List (String × β) :=
  if (m.lookup k).isSome then updateEntry k v m else m ++ [(k, v)]

/-- `Config._set` from config.py lines 241-249: look up the validator
(case-folded name), coerce the value, then overwrite the last history
entry if its source tag equals `source`, else append.  The pair's second
component is the exception, if one was raised; the first component is the
object state after the call, so a raise before any mutation returns the
state unchanged. -/
def _set (c : ConfigState) (source name : String) (value : PyVal) :
    ConfigState × Option PyError :=
  match c.optValidators.lookup (strLower name) with
  | Option.none => (c, some (.keyError (strLower name)))
  | some t =>
    match typemapValidator t value with
    | .error e => (c, some e)
    | .ok rv =>
      match c.optValues.lookup (strLower name) with
      | Option.none => (c, some (.keyError (strLower name)))
      | some s =>
        let s2 :=
          match s.getLast? with
          | some last =>
            if last.1 = source then s.dropLast ++ [(source, rv)]
            else s ++ [(source, rv)]
          | Option.none => s ++ [(source, rv)]
        ({ c with optValues := updateEntry (strLower name) s2 c.optValues },
         Option.none)

/-- The result of `configparser` parsing a source: sections by exact
name, option keys case-folded (configparser lower-cases keys). -/
structure IniFile where
  sections : List (String × List (String × String))

/-- `parser.has_section` (exact-case section name). -/
def IniFile.hasSection (f : IniFile) (s : String) : Bool :=
  (f.sections.lookup s).isSome

/-- `parser.has_option` combined with `parser.get`: case-insensitive in
the option name. -/
def IniFile.get? (f : IniFile) (s o : String) : Option String :=
  (f.sections.lookup s).bind fun opts => opts.lookup (strLower o)

/-- The option loop of `Config._load_from_string` (config.py lines
255-259): for each registered option present in the section, apply its
raw string with the filename as source tag. -/
def loadOptionsLoop (filename : String) (f : IniFile) (sect : String) :
    ConfigState → List String → ConfigState × Option PyError
  | c, [] => (c, Option.none)
  | c, name :: rest =>
    match IniFile.get? f sect name with
    | some value =>
      match _set c filename name (.str value) with
      | (c2, Option.none) => loadOptionsLoop filename f sect c2 rest
      | (c2, some e) => (c2, some e)
    | Option.none => loadOptionsLoop filename f sect c rest

/-- `Config._load_from_string` (config.py lines 251-259), given the
parsed form of the text: if the section named after the config exists,
apply each registered option found in it. -/
def _load_from_ini (c : ConfigState) (filename : String) (f : IniFile) :
    ConfigState × Option PyError :=
  if f.hasSection c.name then loadOptionsLoop filename f c.name c c.options
  else (c, Option.none)

/-- The resolved fate of one candidate source in the constructor's loop
(config.py lines 159-177): skipped (not an existing file, or empty
text), a failed file read, a successfully parsed text, or a text
`configparser` rejects. -/
inductive SourceOutcome where
  | skipped
  | readError
  | parsed (filename : String) (f : IniFile)
  | parseError

/-- The source loop of `Config.__init__` (config.py lines 159-177).
Both `except` handlers (lines 169-171 and 175-177) format their log
message with `str(e)` although the caught exception is bound to `err`;
the name `e` is undefined, so the handler itself raises `NameError`,
which propagates out of the constructor. -/
def applySources (c : ConfigState) : List SourceOutcome → ConfigState × Option PyError
  | [] => (c, Option.none)
  | .skipped :: rest => applySources c rest
  | .readError :: _ => (c, some (.nameError "name e is not defined"))
  | .parseError :: _ => (c, some (.nameError "name e is not defined"))
  | .parsed filename f :: rest =>
    match _load_from_ini c filename f with
    | (c2, Option.none) => applySources c2 rest
    | (c2, some _) => (c2, some (.nameError "name e is not defined"))

/-- The defaults loop of `Config.__init__` (config.py lines 151-153). -/
def applyDefaults (c : ConfigState) : List (String × OptionSpec) → ConfigState × Option PyError
  | [] => (c, Option.none)
  | (name, spec) :: rest =>
    match _set c "default" name spec.default with
    | (c2, Option.none) => applyDefaults c2 rest
    | (c2, some e) => (c2, some e)

/-- The environment loop of `Config.__init__` (config.py lines 179-184)
over a given list of case-folded option names: the variable
`{name}_{option}` upper-cased is applied with tag `environ` whenever
`getenv` does not return `None` — the empty string included. -/
def applyEnvironLoop (env : String → Option String) :
    ConfigState → List String → ConfigState × Option PyError
  | c, [] => (c, Option.none)
  | c, name :: rest =>
    match env (strUpper (c.name ++ "_" ++ name)) with
    | some value =>
      match _set c "environ" name (.str value) with
      | (c2, Option.none) => applyEnvironLoop env c2 rest
      | (c2, some e) => (c2, some e)
    | Option.none => applyEnvironLoop env c rest

/-- `for name in self._opt_values: ...` — the keys of `_opt_values` in
insertion order. -/
def applyEnviron (c : ConfigState) (env : String → Option String) :
    ConfigState × Option PyError :=
  applyEnvironLoop env c (c.optValues.map Prod.fst)

/-- The pairs `(sys.argv[i], sys.argv[i+1])` for `i` in
`range(1, len(sys.argv)-1)` (config.py line 194). -/
def argvPairs (argv : List String) : List (String × String) :=
  (argv.drop 1).zip (argv.drop 2)

/-- The argv loop of `Config.__init__` (config.py lines 192-199): a token
beginning with `--{name}-` (the config name verbatim) whose remainder
case-folds to a registered option name applies the next token with tag
`argv`. -/
def applyArgvLoop (pre : String) :
    ConfigState → List (String × String) → ConfigState × Option PyError
  | c, [] => (c, Option.none)
  | c, (arg, nextTok) :: rest =>
    if strStarts arg pre then
      let name := strDrop arg pre.data.length
      if (c.optValues.lookup (strLower name)).isSome then
        match _set c "argv" name (.str nextTok) with
        | (c2, Option.none) => applyArgvLoop pre c2 rest
        | (c2, some e) => (c2, some e)
      else applyArgvLoop pre c rest
    else applyArgvLoop pre c rest

/-- Scan of `sys.argv` with `arg_prefix = '--' + self._name + '-'`
(config.py lines 193-199). -/
def applyArgv (c : ConfigState) (argv : List String) : ConfigState × Option PyError :=
  applyArgvLoop ("--" ++ c.name ++ "-") c (argvPairs argv)

/-- The schema-building loop of `Config.__init__` (config.py lines
128-143): validate each option name, require the declared type to be a
type object among the `TYPEMAP` keys, then register the name, its
validator and an empty value history (dict assignment on case-folded
keys). -/
def registerOptions (c : ConfigState) :
    List (String × OptionSpec) → Except PyError ConfigState
  | [] => .ok c
  | (name, spec) :: rest =>
    if !is_valid_name name then
      .error (.valueError "Option name must be alphanumeric strings, starting with a letter, and not private.")
    else
      match spec.typ with
      | .typ t =>
        registerOptions
          { c with
            options := c.options ++ [name],
            optValidators := dictSet c.optValidators (strLower name) t,
            optValues := dictSet c.optValues (strLower name) [] } rest
      | _ => .error (.valueError "Option types can be str, bool, int, float.")

/-- `Config.__init__` (config.py lines 107-199): validate the config
name, build the schema, then apply defaults, file sources, environment
variables and command-line arguments, in that order.  The candidate
source list is passed as its resolved outcomes (the three default
file paths plus the caller's extra sources); `env` stands for
`os.getenv` and `argv` for `sys.argv`.  A raised exception aborts
construction. -/
def initConfig (name : String) (srcs : List SourceOutcome)
    (options : List (String × OptionSpec))
    (env : String → Option String) (argv : List String) :
    Except PyError ConfigState :=
  if !is_valid_name name then
    .error (.valueError "Config name must be an alphanumeric string, starting with a letter.")
  else
    match registerOptions ⟨name, [], [], []⟩ options with
    | .error e => .error e
    | .ok c =>
      match applyDefaults c options with
      | (_, some e) => .error e
      | (c1, Option.none) =>
        match applySources c1 srcs with
        | (_, some e) => .error e
        | (c2, Option.none) =>
          match applyEnviron c2 env with
          | (_, some e) => .error e
          | (c3, Option.none) =>
            match applyArgv c3 argv with
            | (_, some e) => .error e
            | (c4, Option.none) => .ok c4

/-- `Config.__getattr__` (config.py lines 211-215): a public name that is
a registered option (case-sensitively) reads the last history entry;
any other name falls through to ordinary attribute lookup, modelled as
`none` (as is the `IndexError` an empty history would raise, which is
unreachable after construction since defaults fill every history). -/
def Config.getattr (c : ConfigState) (name : String) : Option PyVal :=
  if !(strStarts name "_") ∧ name ∈ c.options then
    (c.optValues.lookup (strLower name)).bind fun h => h.getLast?.map Prod.snd
  else Option.none

/-- `Config.__getitem__` (config.py lines 217-224): non-string keys raise
`TypeError` before any lookup; unknown names raise `IndexError`; known
names read the last history entry case-insensitively. -/
def Config.getitem (c : ConfigState) (key : PyVal) : Except PyError PyVal :=
  match key with
  | .str name =>
    match c.optValues.lookup (strLower name) with
    | some h =>
      match h.getLast? with
      | some last => .ok last.2
      | Option.none => .error (.indexError "list index out of range")
    | Option.none => .error (.indexError ("Config has no option " ++ pyRepr (.str name)))
  | _ => .error (.typeError "Config only allows subscripting by name strings.")

/-- `Config.__setattr__` (config.py lines 226-230): a public registered
name (case-sensitively) routes through `_set` with tag `set`; any other
name falls through to ordinary attribute assignment, modelled as
`none`. -/
def Config.setattr (c : ConfigState) (name : String) (value : PyVal) :
    Option (ConfigState × Option PyError) :=
  if !(strStarts name "_") ∧ name ∈ c.options then some (_set c "set" name value)
  else Option.none

/-- `Config.__setitem__` (config.py lines 232-239): non-string keys raise
`TypeError` before any lookup or mutation; unknown names raise
`IndexError`; known names route through `_set` with tag `set`. -/
def Config.setitem (c : ConfigState) (key : PyVal) (value : PyVal) :
    ConfigState × Option PyError :=
  match key with
  | .str name =>
    if (c.optValues.lookup (strLower name)).isSome then _set c "set" name value
    else (c, some (.indexError ("Config has no option " ++ pyRepr (.str name))))
  | _ => (c, some (.typeError "Config only allows subscripting by name strings."))

/-- The value `__getattr__` yields on an option name after a (possibly
failed) construction. -/
def currentValue (r : Except PyError ConfigState) (name : String) : Option PyVal :=
  match r with
  | .ok c => Config.getattr c name
  | .error _ => Option.none

/-- The value `__getattr__` yields on an option name after a successful
construction, one direct assignment through `__setattr__`: `none` if
construction or the assignment failed. -/
def afterSet (r : Except PyError ConfigState) (name : String) (v : PyVal) : Option PyVal :=
  match r with
  | .ok c =>
    match Config.setattr c name v with
    | some (c2, Option.none) => Config.getattr c2 name
    | _ => Option.none
  | .error _ => Option.none

/-- A sample constructed configuration state: config `test` with a single
boolean option `foo` whose default has been applied (the state
`Config('test', foo=(True, bool, 'doc'))` reaches). -/
def cfg1 : ConfigState :=
  ⟨"test", ["foo"], [("foo", [("default", PyVal.bool true)])], [("foo", PyType.bool)]⟩

example : as_bool (.str "Yes") = .ok true := by rfl
example : pyInt (.str " -23 ") = .ok (-23) := by rfl
example : is_valid_name "Test" = true := by rfl
example : is_valid_name "_aa" = false := by rfl
example : initConfig "test" [] [("foo", ⟨PyVal.bool true, .typ .bool, "doc"⟩)]
    (fun _ => Option.none) ["prog"] = .ok cfg1 := by rfl

theorem lookup_updateEntry_self {β : Type} (m : List (String × β)) (k : String) (v : β)
    (h : (m.lookup k).isSome) : (updateEntry k v m).lookup k = some v := by
  induction m with
  | nil => simp [List.lookup] at h
  | cons hd tl ih =>
    obtain ⟨k0, v0⟩ := hd
    by_cases hk : k0 = k
    · subst hk
      simp [updateEntry, List.lookup]
    · have hb : (k == k0) = false := by
        simp only [beq_eq_false_iff_ne, ne_eq]
        exact fun h2 => hk h2.symm
      simp only [List.lookup, hb] at h
      simp only [updateEntry, if_neg hk, List.lookup, hb]
      exact ih h

/-- C1: for an option with a default, a matching file-source entry, a
matching environment variable and a matching command-line argument (all
coercions succeeding), the value after construction is the coerced argv
value; dropping the argv match yields the environment value, dropping
that the file value, dropping that the coerced default; and a later
direct assignment (source-tag `set`) wins over all of them. -/
theorem precedence_law
    (p : PyType) (d sv : PyVal) (fs es avs : String) (vd vf ve va vv : PyVal)
    (hd : typemapValidator p d = .ok vd)
    (hf : typemapValidator p (.str fs) = .ok vf)
    (he : typemapValidator p (.str es) = .ok ve)
    (ha : typemapValidator p (.str avs) = .ok va)
    (hs : typemapValidator p sv = .ok vv) :
    currentValue (initConfig "test" [.parsed "app.cfg" ⟨[("test", [("foo", fs)])]⟩]
        [("foo", ⟨d, .typ p, "doc"⟩)]
        (fun s => if s = "TEST_FOO" then some es else Option.none)
        ["prog", "--test-foo", avs]) "foo" = some va ∧
    currentValue (initConfig "test" [.parsed "app.cfg" ⟨[("test", [("foo", fs)])]⟩]
        [("foo", ⟨d, .typ p, "doc"⟩)]
        (fun s => if s = "TEST_FOO" then some es else Option.none)
        ["prog"]) "foo" = some ve ∧
    currentValue (initConfig "test" [.parsed "app.cfg" ⟨[("test", [("foo", fs)])]⟩]
        [("foo", ⟨d, .typ p, "doc"⟩)]
        (fun _ => Option.none) ["prog"]) "foo" = some vf ∧
    currentValue (initConfig "test" [] [("foo", ⟨d, .typ p, "doc"⟩)]
        (fun _ => Option.none) ["prog"]) "foo" = some vd ∧
    afterSet (initConfig "test" [.parsed "app.cfg" ⟨[("test", [("foo", fs)])]⟩]
        [("foo", ⟨d, .typ p, "doc"⟩)]
        (fun s => if s = "TEST_FOO" then some es else Option.none)
        ["prog", "--test-foo", avs]) "foo" sv = some vv := by
  refine ⟨?_, ?_, ?_, ?_, ?_⟩ <;>
  simp [initConfig, is_valid_name, isIdentifier, isIdentStart, isIdentChar, strStarts,
    registerOptions, dictSet, applyDefaults, _set, strLower, hd, hf, he, ha, hs, applySources,
    _load_from_ini, loadOptionsLoop, IniFile.hasSection, IniFile.get?,
    applyEnviron, applyEnvironLoop, strUpper, applyArgv, applyArgvLoop, argvPairs, strDrop,
    currentValue, Config.getattr, Config.setattr, afterSet, updateEntry, List.isPrefixOf]

/-- Witness for C1 at an integer option: default 3, file entry 5,
environment 7, argv 9, direct set 11. -/
theorem precedence_law_witness :
    currentValue (initConfig "test" [.parsed "app.cfg" ⟨[("test", [("foo", "5")])]⟩]
        [("foo", ⟨PyVal.int 3, .typ .int, "doc"⟩)]
        (fun s => if s = "TEST_FOO" then some "7" else Option.none)
        ["prog", "--test-foo", "9"]) "foo" = some (PyVal.int 9) ∧
    currentValue (initConfig "test" [.parsed "app.cfg" ⟨[("test", [("foo", "5")])]⟩]
        [("foo", ⟨PyVal.int 3, .typ .int, "doc"⟩)]
        (fun s => if s = "TEST_FOO" then some "7" else Option.none)
        ["prog"]) "foo" = some (PyVal.int 7) ∧
    currentValue (initConfig "test" [.parsed "app.cfg" ⟨[("test", [("foo", "5")])]⟩]
        [("foo", ⟨PyVal.int 3, .typ .int, "doc"⟩)]
        (fun _ => Option.none) ["prog"]) "foo" = some (PyVal.int 5) ∧
    currentValue (initConfig "test" [] [("foo", ⟨PyVal.int 3, .typ .int, "doc"⟩)]
        (fun _ => Option.none) ["prog"]) "foo" = some (PyVal.int 3) ∧
    afterSet (initConfig "test" [.parsed "app.cfg" ⟨[("test", [("foo", "5")])]⟩]
        [("foo", ⟨PyVal.int 3, .typ .int, "doc"⟩)]
        (fun s => if s = "TEST_FOO" then some "7" else Option.none)
        ["prog", "--test-foo", "9"]) "foo" (PyVal.int 11) = some (PyVal.int 11) :=
  precedence_law PyType.int (PyVal.int 3) (PyVal.int 11) "5" "7" "9"
    (PyVal.int 3) (PyVal.int 5) (PyVal.int 7) (PyVal.int 9) (PyVal.int 11)
    rfl rfl rfl rfl rfl

/-- C2: a successful write whose source tag equals the tag of the last
history entry replaces that entry in place (history length unchanged),
a write with a different tag appends (length grows by exactly one), and
in either case the current value read back is the freshly written
(coerced) value, which sits in the last entry. -/
theorem history_overwrite_law
    (c : ConfigState) (src name : String) (v : PyVal) (t : PyType) (rv : PyVal)
    (hist : List (String × PyVal))
    (hval : c.optValidators.lookup (strLower name) = some t)
    (hh : c.optValues.lookup (strLower name) = some hist)
    (hok : typemapValidator t v = .ok rv)
    (hpub : strStarts name "_" = false) (hopt : name ∈ c.options) :
    ∃ hist2,
      (_set c src name v).1.optValues.lookup (strLower name) = some hist2 ∧
      (_set c src name v).2 = Option.none ∧
      hist2.getLast? = some (src, rv) ∧
      (hist.getLast?.map Prod.fst = some src → hist2.length = hist.length) ∧
      (hist.getLast?.map Prod.fst ≠ some src → hist2.length = hist.length + 1) ∧
      Config.getattr (_set c src name v).1 name = some rv := by
  have hsome : (c.optValues.lookup (strLower name)).isSome := by rw [hh]; rfl
  have hlu := lookup_updateEntry_self c.optValues (strLower name)
  rcases hg : hist.getLast? with _ | ⟨tag, w⟩
  · have hnil : hist = [] := List.getLast?_eq_none_iff.mp hg
    subst hnil
    have hset : _set c src name v =
        ({c with optValues := updateEntry (strLower name) [(src, rv)] c.optValues},
         Option.none) := by
      simp [_set, hval, hok, hh]
    refine ⟨[(src, rv)], ?_, ?_, ?_, ?_, ?_, ?_⟩
    · rw [hset]; exact hlu _ hsome
    · rw [hset]
    · rfl
    · simp
    · simp
    · rw [hset]
      simp [Config.getattr, hpub, hopt, hlu _ hsome]
  · have hne : hist ≠ [] := by rintro rfl; simp at hg
    have hpos : 0 < hist.length := List.length_pos.mpr hne
    by_cases htag : tag = src
    · have hset : _set c src name v =
          ({c with optValues :=
              updateEntry (strLower name) (hist.dropLast ++ [(src, rv)]) c.optValues},
           Option.none) := by
        simp [_set, hval, hok, hh, hg, htag]
      refine ⟨hist.dropLast ++ [(src, rv)], ?_, ?_, ?_, ?_, ?_, ?_⟩
      · rw [hset]; exact hlu _ hsome
      · rw [hset]
      · exact List.getLast?_concat _
      · intro _
        simp [List.length_dropLast]
        omega
      · intro h2
        simp [htag] at h2
      · rw [hset]
        simp [Config.getattr, hpub, hopt, hlu _ hsome, List.getLast?_concat]
    · have hset : _set c src name v =
          ({c with optValues :=
              updateEntry (strLower name) (hist ++ [(src, rv)]) c.optValues},
           Option.none) := by
        simp [_set, hval, hok, hh, hg, htag]
      refine ⟨hist ++ [(src, rv)], ?_, ?_, ?_, ?_, ?_, ?_⟩
      · rw [hset]; exact hlu _ hsome
      · rw [hset]
      · exact List.getLast?_concat _
      · intro h2
        simp at h2
        exact absurd h2 htag
      · intro _
        simp
      · rw [hset]
        simp [Config.getattr, hpub, hopt, hlu _ hsome, List.getLast?_concat]

/-- Witness for C2: writing `False` with tag `set` onto a history whose
last tag is `default` appends (length 1 to 2), and the current value
becomes the written value. -/
theorem history_overwrite_law_witness :
    ∃ hist2,
      (_set cfg1 "set" "foo" (PyVal.bool false)).1.optValues.lookup (strLower "foo")
        = some hist2 ∧
      (_set cfg1 "set" "foo" (PyVal.bool false)).2 = Option.none ∧
      hist2.getLast? = some ("set", PyVal.bool false) ∧
      ([("default", PyVal.bool true)].getLast?.map Prod.fst = some "set" →
        hist2.length = [("default", PyVal.bool true)].length) ∧
      ([("default", PyVal.bool true)].getLast?.map Prod.fst ≠ some "set" →
        hist2.length = [("default", PyVal.bool true)].length + 1) ∧
      Config.getattr (_set cfg1 "set" "foo" (PyVal.bool false)).1 "foo"
        = some (PyVal.bool false) :=
  history_overwrite_law cfg1 "set" "foo" (PyVal.bool false) PyType.bool (PyVal.bool false)
    [("default", PyVal.bool true)] rfl rfl rfl rfl (by simp [cfg1])

/-- C3: the repository's own tests (`test_config.py`, `test_defaults`
`x05`/`x06` and `test_tuple`) declare options whose kind is a
single-element sequence such as `(int,)` or `[int]` and rely on tuple
coercion, but the constructor's check
`isinstance(typ, type) and issubclass(typ, tuple(TYPEMAP))`
(config.py line 136) rejects any non-type kind, so such a construction
raises `ValueError` instead: evaluated here on the `x05` option of
`test_defaults` and the `foo` option of `test_tuple`. -/
theorem tuple_kind_rejected_by_constructor :
    initConfig "testconfig" []
      [("x05", ⟨PyVal.list [PyVal.int 1, PyVal.int 2, PyVal.int 3], .seq [.int],
        "A list of ints, as a tuple"⟩)]
      (fun _ => Option.none) ["prog"]
      = .error (.valueError "Option types can be str, bool, int, float.") ∧
    initConfig "testconfig" []
      [("foo", ⟨PyVal.str "1,2", .seq [.int], "doc"⟩)]
      (fun _ => Option.none) ["prog"]
      = .error (.valueError "Option types can be str, bool, int, float.") :=
  ⟨rfl, rfl⟩

/-- C4: the `except` handlers of the source loop (config.py lines
169-171 and 175-177) log with `str(e)` although the caught exception is
bound to `err`, so the handler itself raises `NameError` and
construction aborts on an unreadable or unparsable source instead of
skipping it; with no failing source the same construction completes
with the defaults. -/
theorem source_error_aborts_construction :
    initConfig "testconfig" [.parseError]
      [("foo", ⟨PyVal.int 3, .typ .int, "an int"⟩)] (fun _ => Option.none) ["prog"]
      = .error (.nameError "name e is not defined") ∧
    initConfig "testconfig" [.readError]
      [("foo", ⟨PyVal.int 3, .typ .int, "an int"⟩)] (fun _ => Option.none) ["prog"]
      = .error (.nameError "name e is not defined") ∧
    currentValue (initConfig "testconfig" [.skipped]
      [("foo", ⟨PyVal.int 3, .typ .int, "an int"⟩)] (fun _ => Option.none) ["prog"])
      "foo" = some (PyVal.int 3) :=
  ⟨rfl, rfl, rfl⟩

/-- C5 counterexample: an environment variable set to the empty string
does not leave the option untouched — the constructor checks only
`is not None` (config.py line 183), so the empty string is applied and
replaces the default `"x"`. -/
theorem empty_env_var_applied :
    currentValue (initConfig "test" []
      [("foo", ⟨PyVal.str "x", .typ .str, "doc"⟩)]
      (fun s => if s = "TEST_FOO" then some "" else Option.none) ["prog"]) "foo"
      = some (PyVal.str "") ∧
    some (PyVal.str "") ≠ some (PyVal.str "x") :=
  ⟨rfl, by simp⟩

/-- C5 (amended): the environment variable `{name}_{option}` upper-cased
is applied with tag `environ` if and only if `getenv` finds it (returns
non-`None`); an absent variable leaves the coerced default, while a
present variable is applied whatever its value — the empty string
included. -/
theorem env_applied_iff_present
    (p : PyType) (d vd : PyVal) (envf : String → Option String)
    (hd : typemapValidator p d = .ok vd) :
    (envf "TEST_FOO" = Option.none →
      currentValue (initConfig "test" [] [("foo", ⟨d, .typ p, "doc"⟩)] envf ["prog"])
        "foo" = some vd) ∧
    (∀ s ve, envf "TEST_FOO" = some s → typemapValidator p (.str s) = .ok ve →
      currentValue (initConfig "test" [] [("foo", ⟨d, .typ p, "doc"⟩)] envf ["prog"])
        "foo" = some ve) := by
  have hq : strUpper ("test" ++ "_" ++ "foo") = "TEST_FOO" := rfl
  constructor
  · intro henv
    simp [initConfig, is_valid_name, isIdentifier, isIdentStart, isIdentChar, strStarts,
      registerOptions, dictSet, applyDefaults, _set, strLower, hd, applySources,
      applyEnviron, applyEnvironLoop, strUpper, hq, henv,
      applyArgv, applyArgvLoop, argvPairs,
      currentValue, Config.getattr, updateEntry]
  · intro s ve henv hev
    simp [initConfig, is_valid_name, isIdentifier, isIdentStart, isIdentChar, strStarts,
      registerOptions, dictSet, applyDefaults, _set, strLower, hd, applySources,
      applyEnviron, applyEnvironLoop, strUpper, hq, henv, hev,
      applyArgv, applyArgvLoop, argvPairs,
      currentValue, Config.getattr, updateEntry]

/-- Witness for C5's amended theorem: a present-but-empty variable is
applied (current value becomes the empty string). -/
theorem env_applied_iff_present_witness :
    currentValue (initConfig "test" []
      [("foo", ⟨PyVal.str "x", .typ .str, "doc"⟩)]
      (fun s => if s = "TEST_FOO" then some "" else Option.none) ["prog"]) "foo"
      = some (PyVal.str "") :=
  (env_applied_iff_present PyType.str (PyVal.str "x") (PyVal.str "x")
      (fun s => if s = "TEST_FOO" then some "" else Option.none) rfl).2 "" (PyVal.str "")
    rfl rfl

/-- C6: the boolean validator passes booleans through, maps a string to
`true` exactly when its case-folded form is in 1/yes/true/on and to
`false` exactly when it is in 0/no/false/off, and raises `ValueError`
(the coercion failure) on every other string as well as on the raw
integers 0 and 1, `None`, and any list. -/
theorem boolean_validator_spec :
    (∀ b, as_bool (.bool b) = .ok b) ∧
    (∀ s, strLower s ∈ ["1", "yes", "true", "on"] → as_bool (.str s) = .ok true) ∧
    (∀ s, strLower s ∈ ["0", "no", "false", "off"] → as_bool (.str s) = .ok false) ∧
    (∀ s, strLower s ∉ ["1", "yes", "true", "on"] →
          strLower s ∉ ["0", "no", "false", "off"] →
          ∃ m, as_bool (.str s) = .error (.valueError m)) ∧
    (∃ m, as_bool (.int 0) = .error (.valueError m)) ∧
    (∃ m, as_bool (.int 1) = .error (.valueError m)) ∧
    (∃ m, as_bool .none = .error (.valueError m)) ∧
    (∀ xs, ∃ m, as_bool (.list xs) = .error (.valueError m)) := by
  refine ⟨fun b => rfl, ?_, ?_, ?_, ⟨_, rfl⟩, ⟨_, rfl⟩, ⟨_, rfl⟩, fun xs => ⟨_, rfl⟩⟩
  · intro s h
    simp only [List.mem_cons, List.not_mem_nil, or_false] at h
    rcases h with h | h | h | h <;> simp [as_bool, BOOLEAN_STATES, List.lookup, h]
  · intro s h
    simp only [List.mem_cons, List.not_mem_nil, or_false] at h
    rcases h with h | h | h | h <;> simp [as_bool, BOOLEAN_STATES, List.lookup, h]
  · intro s h1 h2
    simp only [List.mem_cons, List.not_mem_nil, or_false] at h1 h2
    push_neg at h1 h2
    obtain ⟨n1, n2, n3, n4⟩ := h1
    obtain ⟨n5, n6, n7, n8⟩ := h2
    have hnone : BOOLEAN_STATES.lookup (strLower s) = Option.none := by
      simp only [BOOLEAN_STATES, List.lookup,
        beq_eq_false_iff_ne.mpr n1, beq_eq_false_iff_ne.mpr n2,
        beq_eq_false_iff_ne.mpr n3, beq_eq_false_iff_ne.mpr n4,
        beq_eq_false_iff_ne.mpr n5, beq_eq_false_iff_ne.mpr n6,
        beq_eq_false_iff_ne.mpr n7, beq_eq_false_iff_ne.mpr n8]
    exact ⟨"Cannot make a bool of " ++ pyRepr (.str s), by simp [as_bool, hnone]⟩

/-- Witness for C6: `"On"` coerces to true; `"maybe"` raises the
coercion error. -/
theorem boolean_validator_spec_witness :
    as_bool (.str "On") = .ok true ∧
    ∃ m, as_bool (.str "maybe") = .error (.valueError m) :=
  ⟨boolean_validator_spec.2.1 "On" (by decide),
   boolean_validator_spec.2.2.2.1 "maybe" (by decide) (by decide)⟩

/-- C7: a write whose value fails the option's validator surfaces the
validator's error to the caller and leaves the configuration state —
every option's value history included — exactly as it was: `_set`
coerces before touching the history, so the failed write mutates
nothing. -/
theorem failed_write_state_unchanged
    (c : ConfigState) (src name : String) (v : PyVal) (t : PyType) (e : PyError)
    (hval : c.optValidators.lookup (strLower name) = some t)
    (herr : typemapValidator t v = .error e) :
    _set c src name v = (c, some e) := by
  simp [_set, hval, herr]

/-- Witness for C7: writing `"maybe"` to the boolean option of `cfg1`
raises the coercion error and returns the state unchanged. -/
theorem failed_write_state_unchanged_witness :
    _set cfg1 "set" "foo" (PyVal.str "maybe") =
      (cfg1, some (.valueError ("Cannot make a bool of " ++ pyRepr (PyVal.str "maybe")))) :=
  failed_write_state_unchanged cfg1 "set" "foo" (PyVal.str "maybe") PyType.bool
    (.valueError ("Cannot make a bool of " ++ pyRepr (PyVal.str "maybe"))) rfl rfl

/-- C9: on a registered public option, the case-sensitive attribute path
and the case-insensitive subscript path agree: both reads return the
value of the last history entry, and both writes route through the same
`_set` with source-tag `set`, so after the same writes both paths read
the same current value. -/
theorem dual_access_agree
    (c : ConfigState) (name : String) (v : PyVal)
    (hist : List (String × PyVal)) (last : String × PyVal)
    (hpub : strStarts name "_" = false) (hopt : name ∈ c.options)
    (hh : c.optValues.lookup (strLower name) = some hist)
    (hg : hist.getLast? = some last) :
    Config.getattr c name = some last.2 ∧
    Config.getitem c (.str name) = .ok last.2 ∧
    Config.setattr c name v = some (_set c "set" name v) ∧
    Config.setitem c (.str name) v = _set c "set" name v := by
  refine ⟨?_, ?_, ?_, ?_⟩
  · simp [Config.getattr, hpub, hopt, hh, hg]
  · simp [Config.getitem, hh, hg]
  · simp [Config.setattr, hpub, hopt]
  · simp [Config.setitem, hh]

/-- Witness for C9 on `cfg1`: both paths read the default `True` and
both writes reduce to the same `_set` call. -/
theorem dual_access_agree_witness :
    Config.getattr cfg1 "foo" = some (PyVal.bool true) ∧
    Config.getitem cfg1 (.str "foo") = .ok (PyVal.bool true) ∧
    Config.setattr cfg1 "foo" (PyVal.bool false)
      = some (_set cfg1 "set" "foo" (PyVal.bool false)) ∧
    Config.setitem cfg1 (.str "foo") (PyVal.bool false)
      = _set cfg1 "set" "foo" (PyVal.bool false) :=
  dual_access_agree cfg1 "foo" (PyVal.bool false)
    [("default", PyVal.bool true)] ("default", PyVal.bool true)
    rfl (by simp [cfg1]) rfl rfl

/-- C10: subscript read and subscript write with a non-string key both
raise `TypeError` before any lookup or mutation: the read produces no
value and the write returns the state exactly as it was. -/
theorem nonstring_key_typeerror
    (c : ConfigState) (key v : PyVal) (hk : ∀ s, key ≠ .str s) :
    (∃ m, Config.getitem c key = .error (.typeError m)) ∧
    Config.setitem c key v =
      (c, some (.typeError "Config only allows subscripting by name strings.")) := by
  cases key with
  | str s => exact absurd rfl (hk s)
  | int n => exact ⟨⟨_, rfl⟩, rfl⟩
  | bool b => exact ⟨⟨_, rfl⟩, rfl⟩
  | none => exact ⟨⟨_, rfl⟩, rfl⟩
  | list xs => exact ⟨⟨_, rfl⟩, rfl⟩

/-- Witness for C10: subscripting `cfg1` with the integer key 5. -/
theorem nonstring_key_typeerror_witness :
    (∃ m, Config.getitem cfg1 (PyVal.int 5) = .error (.typeError m)) ∧
    Config.setitem cfg1 (PyVal.int 5) (PyVal.int 1) =
      (cfg1, some (.typeError "Config only allows subscripting by name strings.")) :=
  nonstring_key_typeerror cfg1 (PyVal.int 5) (PyVal.int 1) (fun _ h => PyVal.noConfusion h)

/-- C8 counterexample: the flag prefix is built from the configuration
name verbatim (`arg_prefix = '--' + self._name + '-'`, config.py line
193), not lower-cased: for a config named `Test`, the flag
`--test-foo 42` is not matched and the option keeps its default 3
instead of the claimed coerced command-line value 42. -/
theorem argv_prefix_not_lowercased :
    currentValue (initConfig "Test" [] [("foo", ⟨PyVal.int 3, .typ .int, "doc"⟩)]
      (fun _ => Option.none) ["prog", "--test-foo", "42"]) "foo" = some (PyVal.int 3) ∧
    some (PyVal.int 3) ≠ some (PyVal.int 42) :=
  ⟨rfl, by simp⟩

/-- C8 (amended): the argv scan matches tokens of the exact form
`--{configuration-name}-{option-name}` with the configuration name
taken verbatim (case-sensitively), option-name matching case-insensitive;
a matched flag's following token is applied as the raw value with
source-tag `argv`; unmatched flags are ignored without error, and a
matched flag with no following token is ignored (the scan stops before
the last argument). -/
theorem argv_verbatim_scan
    (vs : String) (vi : Int) (hv : pyInt (.str vs) = .ok vi) :
    currentValue (initConfig "Test" [] [("foo", ⟨PyVal.int 3, .typ .int, "doc"⟩)]
      (fun _ => Option.none)
      ["prog", "--unknown-flag", "zzz", "--Test-FOO", vs]) "foo" = some (PyVal.int vi) ∧
    currentValue (initConfig "Test" [] [("foo", ⟨PyVal.int 3, .typ .int, "doc"⟩)]
      (fun _ => Option.none) ["prog", "--Test-foo"]) "foo" = some (PyVal.int 3) := by
  have hd3 : pyInt (PyVal.int 3) = .ok 3 := rfl
  constructor <;>
  simp [initConfig, is_valid_name, isIdentifier, isIdentStart, isIdentChar, strStarts,
    registerOptions, dictSet, applyDefaults, _set, strLower, hv, applySources,
    applyEnviron, applyEnvironLoop, strUpper, applyArgv, applyArgvLoop, argvPairs, strDrop,
    currentValue, Config.getattr, updateEntry, typemapValidator, hd3, Except.map,
    List.isPrefixOf]

/-- Witness for C8's amended theorem at the raw value `"42"`. -/
theorem argv_verbatim_scan_witness :
    currentValue (initConfig "Test" [] [("foo", ⟨PyVal.int 3, .typ .int, "doc"⟩)]
      (fun _ => Option.none)
      ["prog", "--unknown-flag", "zzz", "--Test-FOO", "42"]) "foo" = some (PyVal.int 42) ∧
    currentValue (initConfig "Test" [] [("foo", ⟨PyVal.int 3, .typ .int, "doc"⟩)]
      (fun _ => Option.none) ["prog", "--Test-foo"]) "foo" = some (PyVal.int 3) :=
  argv_verbatim_scan "42" 42 rfl
